import Mathlib

/-!
Verification development for the LGAR-Torch repository.

The embedding models the three given source files:
  - `src/lgartorch/models/physics/GlobalParams.py` (class `GlobalParams`),
  - `src/src/physics/Lgar.py` (class `LGAR`),
  - `src/lgartorch/models/dpLGAR.py` (class `dpLGAR`, in particular `forward`,
    `create_surficial_front` and `update_states`).

Numeric tensor values are modelled as rationals; Python exceptions are
modelled with an explicit error type and `Except`.  The `Layer` class is not
among the given sources, so its methods are kept abstract (see `LayerOps`).
-/

/-- Python exceptions that the modelled code can raise. -/
inductive PyErr where
  | notImplemented
  | typeError
  | attributeError
deriving DecidableEq

/-- Configuration values read from `cfg.data` by the two constructors.
Only the fields the modelled code touches are kept. -/
structure Config where
  layer_thickness : List ℚ
  layer_soil_type : List ℤ
  giuh_ordinates : List ℚ
  initial_psi : ℚ
  ponded_depth_max : ℚ
deriving DecidableEq

/-- The cumulative-thickness loop shared by both constructors:
starting from a running value `prev` (the already accumulated depth),
`cum[i] = cum[i-1] + thickness[i]`. -/
def cum_from (prev : ℚ) : List ℚ → List ℚ
  | [] => []
  | t :: ts => (prev + t) :: cum_from (prev + t) ts

/-- The fields of `GlobalParams` that `initialize_config_parameters`
(`src/lgartorch/models/physics/GlobalParams.py`) fills from the config. -/
structure GlobalParams where
  layer_thickness_cm : List ℚ
  cum_layer_thickness : List ℚ
  num_layers : ℕ
  soil_depth_cm : ℚ
  initial_psi : ℚ
  ponded_depth_max_cm : ℚ
  layer_soil_type : List ℤ
  giuh_ordinates : List ℚ
deriving DecidableEq

/-- `GlobalParams.initialize_config_parameters`: straight transcription of the
assignments in `GlobalParams.py` lines 89-119.  `cum_layer_thickness` starts
as zeros, receives `layer_thickness[0]` at index 0 and then the running sums;
`soil_depth_cm` is its last entry; `layer_soil_type` is the configured list
shifted down by one; `giuh_ordinates` is stored as given.  No validation of
any kind is performed.  An empty thickness list makes the index assignment
`cum_layer_thickness[0] = ...` fail (Python `IndexError`), modelled as `none`. -/
def GlobalParams.initialize_config_parameters (cfg : Config) : Option GlobalParams :=
  match cfg.layer_thickness with
  | [] => none
  | _ :: _ => some
    { layer_thickness_cm := cfg.layer_thickness
      cum_layer_thickness := cum_from 0 cfg.layer_thickness
      num_layers := cfg.layer_thickness.length
      soil_depth_cm := (cum_from 0 cfg.layer_thickness).getLastD 0
      initial_psi := cfg.initial_psi
      ponded_depth_max_cm := cfg.ponded_depth_max
      layer_soil_type := cfg.layer_soil_type.map (fun z => z - 1)
      giuh_ordinates := cfg.giuh_ordinates }

/-- The fields of the older `LGAR` constructor (`src/src/physics/Lgar.py`
lines 87-96) that overlap with `GlobalParams`.  There the thickness tensor is
padded with a leading zero (`layer_thickness_cm[1:] = thickness`), the
cumulative loop runs over the padded tensor starting from `cum[0] = 0`,
`num_layers` is the padded tensor's length, and `soil_depth_cm` is the last
cumulative entry. -/
structure LGAR where
  layer_thickness_cm : List ℚ
  cum_layer_thickness : List ℚ
  num_layers : ℕ
  soil_depth_cm : ℚ
deriving DecidableEq

/-- Transcription of `LGAR.__init__` lines 87-96. -/
def LGAR.init (cfg : Config) : LGAR :=
  { layer_thickness_cm := 0 :: cfg.layer_thickness
    cum_layer_thickness := cum_from 0 (0 :: cfg.layer_thickness)
    num_layers := (0 :: cfg.layer_thickness).length
    soil_depth_cm := (cum_from 0 (0 :: cfg.layer_thickness)).getLastD 0 }

/-- The mutable simulation state of `dpLGAR` that the modelled slice of
`forward` reads or writes: `self.ponded_water` and the running timestep
accumulator `self.runoff[i]`. -/
structure SimState where
  ponded_water : ℚ
  runoff_i : ℚ
deriving DecidableEq

/-- `dpLGAR.create_surficial_front` (lines 219-232): true exactly when the
previous substep's precipitation is zero, the current substep's precipitation
is positive, and the stored ponded water is zero.  It only reads
`self.ponded_water`; it returns a boolean and mutates nothing. -/
def create_surficial_front (s : SimState) (previous_precip precip_sub : ℚ) : Bool :=
  decide (previous_precip = 0) && decide (precip_sub > 0) && decide (s.ponded_water = 0)

/-- The ponding/runoff resolution of `forward` lines 168-179, reached in the
branch with no new surficial front and non-positive ponded depth.  Returns
`(runoff_sub, ponded_water_sub, ponded_depth_sub)` after the block. -/
def ponding_resolution (ponded_depth_sub ponded_depth_max_cm : ℚ) : ℚ × ℚ × ℚ :=
  if ponded_depth_sub < ponded_depth_max_cm then
    (0, ponded_depth_sub, 0)
  else
    (ponded_depth_sub - ponded_depth_max_cm, ponded_depth_max_cm, ponded_depth_max_cm)

/-- `dpLGAR.update_states(self, i)` (lines 250-251): unconditionally raises
`NotImplementedError` for every argument. -/
def update_states (i : ℕ) : Except PyErr Unit := Except.error PyErr.notImplemented

/-- The call site `self.update_states()` in `forward` line 204 passes no
argument although `update_states(self, i)` requires one, so in Python the call
raises `TypeError` before the body is even entered. -/
def update_states_call : Except PyErr Unit := Except.error PyErr.typeError

/-- Modelled from the spec: the `Layer` class
(`lgartorch/models/physics/layers/Layer.py`) is not among the given sources;
only its call sites in `dpLGAR.forward` are.  Its methods are therefore kept
fully abstract, as arbitrary total transformers of an abstract layer-stack
state `L` returning whatever numeric results the call sites consume
(spec section 4.3 lists the operations and their roles). -/
structure LayerOps (L : Type) where
  is_saturated : L → Bool
  calc_aet : L → ℚ → ℚ × L
  calc_wetting_front_free_drainage : L → ℚ
  move_wetting_fronts : L → ℚ → ℚ → ℚ → ℚ → ℚ → ℚ → ℚ × L
  merge_wetting_fronts : L → L
  wetting_fronts_cross_layer_boundary : L → L
  wetting_front_cross_domain_boundary : L → ℚ × L
  fix_dry_over_wet_fronts : L → L
  update_psi : L → L
  calc_dzdt : L → L
  mass_balance : L → ℚ
  giuh_runoff : L → ℚ

/-- Operation labels, one per method call that `forward` issues during a
substep, used to record the order in which the calls happen. -/
inductive Op where
  | createSurficialFront
  | calcWettingFrontFreeDrainage
  | isSaturated
  | calcAet
  | moveWettingFronts
  | mergeWettingFronts
  | wettingFrontsCrossLayerBoundary
  | wettingFrontCrossDomainBoundary
  | fixDryOverWetFronts
  | updatePsi
  | calcDzDt
  | massBalance
  | giuhRunoff
  | updateStates
deriving DecidableEq

/-- Everything one substep of `forward` (the body of the `j` loop, lines
141-204) leaves behind: the ordered trace of issued layer/model calls, the
object state after the mutations that happened before any raise, the layer
stack, the timestep-local `bottom_boundary_flux` and `ending_volume_sub`
values, the local `percolation_sub`, and the substep's outcome (normal
completion or the Python exception that aborted it). -/
structure SubstepOut (L : Type) where
  trace : List Op
  state : SimState
  layer : L
  bottom_boundary_flux : ℚ
  ending_volume_sub : ℚ
  percolation_sub : ℚ
  result : Except PyErr Unit

/-- The common prefix of every substep: lines 148-154.  The calls to
`create_surficial_front`, `calc_wetting_front_free_drainage` and
`is_saturated` always happen; `calc_aet` only when `pet_sub > 0`. -/
def substep_prelude {L : Type} (ops : LayerOps L) (layer : L) (pet_sub : ℚ) :
    List Op × ℚ × L :=
  let pre := [Op.createSurficialFront, Op.calcWettingFrontFreeDrainage, Op.isSaturated]
  if pet_sub > 0 then
    let r := ops.calc_aet layer pet_sub
    (pre ++ [Op.calcAet], r.1, r.2)
  else
    (pre, 0, layer)

/-- Outcome of the substep branches that raise `NotImplementedError`
(lines 155-166: a new surficial front must be created — saturated or not —
or no new front but positive ponded depth).  Nothing after the raise runs,
so state, flux and volume are returned unchanged. -/
def substep_blocked {L : Type} (ops : LayerOps L) (s : SimState) (layer : L)
    (pet_sub ending_volume_sub bottom_boundary_flux : ℚ) : SubstepOut L :=
  let p := substep_prelude ops layer pet_sub
  { trace := p.1
    state := s
    layer := p.2.2
    bottom_boundary_flux := bottom_boundary_flux
    ending_volume_sub := ending_volume_sub
    percolation_sub := 0
    result := Except.error PyErr.notImplemented }

/-- Outcome of the only branch that runs to the bottom of the loop body
(lines 167-204): no new surficial front and non-positive ponded depth.
The ponding block resolves runoff, `self.runoff[i]` is incremented, the
front-movement calls are issued in source order (`move_wetting_fronts`;
`merge_wetting_fronts`; `wetting_fronts_cross_layer_boundary`;
`merge_wetting_fronts`; `wetting_front_cross_domain_boundary` accumulated
into `bottom_boundary_flux`, which overwrites `percolation_sub`;
`fix_dry_over_wet_fronts`; `update_psi`; then `calc_dzdt`, the
`calc_mass_balance` recomputation and `giuh_runoff`), and the substep ends
at the broken `self.update_states()` call. -/
def substep_dry {L : Type} (ops : LayerOps L) (gp : GlobalParams) (s : SimState)
    (layer : L) (precip_sub pet_sub subcycle_length_h num_wetting_fronts
      ending_volume_sub bottom_boundary_flux : ℚ) : SubstepOut L :=
  let ponded_depth_sub := precip_sub + s.ponded_water
  let p := substep_prelude ops layer pet_sub
  let AET_sub := p.2.1
  let layer1 := p.2.2
  let pr := ponding_resolution ponded_depth_sub gp.ponded_depth_max_cm
  let runoff_sub := pr.1
  let s1 : SimState := { s with runoff_i := s.runoff_i + runoff_sub }
  let mv := ops.move_wetting_fronts layer1 0 AET_sub ending_volume_sub
    num_wetting_fronts subcycle_length_h (ops.calc_wetting_front_free_drainage layer)
  let layer3 := ops.merge_wetting_fronts mv.2
  let layer4 := ops.wetting_fronts_cross_layer_boundary layer3
  let layer5 := ops.merge_wetting_fronts layer4
  let cd := ops.wetting_front_cross_domain_boundary layer5
  let bflux1 := bottom_boundary_flux + cd.1
  let layer7 := ops.fix_dry_over_wet_fronts cd.2
  let layer8 := ops.update_psi layer7
  let layer9 := ops.calc_dzdt layer8
  let ev1 := ops.mass_balance layer9
  { trace := p.1 ++ [Op.moveWettingFronts, Op.mergeWettingFronts,
      Op.wettingFrontsCrossLayerBoundary, Op.mergeWettingFronts,
      Op.wettingFrontCrossDomainBoundary, Op.fixDryOverWetFronts, Op.updatePsi,
      Op.calcDzDt, Op.massBalance, Op.giuhRunoff, Op.updateStates]
    state := s1
    layer := layer9
    bottom_boundary_flux := bflux1
    ending_volume_sub := ev1
    percolation_sub := bflux1
    result := update_states_call }

/-- One substep of `dpLGAR.forward` (the body of the `j` loop, lines
141-204).  `precip` and `pet` are the forcing rates, `previous_precip` the
carried amount, `subcycle_length_h` the substep length; the amounts are
`rate * subcycle_length_h` as in lines 142-143.  The branch structure of
lines 155-167 is transcribed literally: when a surficial front must be
created the saturated and unsaturated sub-branches both raise
`NotImplementedError`, as does the positive-ponded-depth branch with no new
front. -/
def substep {L : Type} (ops : LayerOps L) (gp : GlobalParams) (s : SimState)
    (layer : L) (precip pet previous_precip subcycle_length_h num_wetting_fronts
      ending_volume_sub bottom_boundary_flux : ℚ) : SubstepOut L :=
  let precip_sub := precip * subcycle_length_h
  let pet_sub := pet * subcycle_length_h
  let ponded_depth_sub := precip_sub + s.ponded_water
  if create_surficial_front s previous_precip precip_sub then
    if ops.is_saturated layer then
      substep_blocked ops s layer pet_sub ending_volume_sub bottom_boundary_flux
    else
      substep_blocked ops s layer pet_sub ending_volume_sub bottom_boundary_flux
  else
    if ponded_depth_sub > 0 then
      substep_blocked ops s layer pet_sub ending_volume_sub bottom_boundary_flux
    else
      substep_dry ops gp s layer precip_sub pet_sub subcycle_length_h
        num_wetting_fronts ending_volume_sub bottom_boundary_flux

/-- Boolean success test for an `Except` value. -/
def isOkB {ε α : Type} : Except ε α → Bool
  | Except.ok _ => true
  | Except.error _ => false

/-- The inner `j` loop of `forward` (lines 141-204): run `n` substeps,
threading the object state, the layer stack, `previous_precip` (line 203),
`ending_volume_sub` (line 201) and `bottom_boundary_flux` (line 192);
a raised exception aborts the whole call. -/
def run_subcycles {L : Type} (ops : LayerOps L) (gp : GlobalParams)
    (precip pet subcycle_length_h num_wetting_fronts : ℚ) :
    ℕ → SimState → L → ℚ → ℚ → ℚ → Except PyErr (SimState × L × ℚ)
  | 0, s, layer, prev, _, _ => Except.ok (s, layer, prev)
  | n + 1, s, layer, prev, ev, bflux =>
    let o := substep ops gp s layer precip pet prev subcycle_length_h
      num_wetting_fronts ev bflux
    match o.result with
    | Except.error e => Except.error e
    | Except.ok _ => run_subcycles ops gp precip pet subcycle_length_h
        num_wetting_fronts n o.state o.layer (precip * subcycle_length_h)
        o.ending_volume_sub o.bottom_boundary_flux

/-- The outer `i` loop of `forward` (lines 137-206): every timestep restarts
`bottom_boundary_flux` at zero (line 139) and `ending_volume_sub` from
`self.ending_volume` (line 140), then runs the subcycles. -/
def run_timesteps {L : Type} (ops : LayerOps L) (gp : GlobalParams)
    (precip pet subcycle_length_h num_wetting_fronts ending_volume : ℚ)
    (num_subcycles : ℕ) :
    ℕ → SimState → L → ℚ → Except PyErr (SimState × L × ℚ)
  | 0, s, layer, prev => Except.ok (s, layer, prev)
  | n + 1, s, layer, prev =>
    match run_subcycles ops gp precip pet subcycle_length_h num_wetting_fronts
      num_subcycles s layer prev ending_volume 0 with
    | Except.error e => Except.error e
    | Except.ok (s1, layer1, prev1) =>
      run_timesteps ops gp precip pet subcycle_length_h num_wetting_fronts
        ending_volume num_subcycles n s1 layer1 prev1

/-- `dpLGAR.forward` (lines 117-208): `previous_precip` starts at zero
(line 133); after the loops the function executes
`return self.volrunoff_timestep_cm`, but that attribute is never assigned in
`__init__` (the assignment is commented out at line 106), so even a run whose
loops finish raises `AttributeError` at the return statement. -/
def forward {L : Type} (ops : LayerOps L) (gp : GlobalParams) (s : SimState)
    (layer : L) (precip pet subcycle_length_h num_wetting_fronts ending_volume : ℚ)
    (nsteps num_subcycles : ℕ) : Except PyErr ℚ :=
  match run_timesteps ops gp precip pet subcycle_length_h num_wetting_fronts
    ending_volume num_subcycles nsteps s layer 0 with
  | Except.error e => Except.error e
  | Except.ok _ => Except.error PyErr.attributeError

/-- Relational (small-step) view of one substep of `forward`, with one
constructor per control path of lines 155-204: a new surficial front while
saturated or unsaturated (both raise), no new front with positive ponded
depth (raises), and the dry path that runs the front-movement phase. -/
inductive SubstepRel {L : Type} (ops : LayerOps L) (gp : GlobalParams)
    (precip pet subcycle_length_h num_wetting_fronts : ℚ) :
    SimState → L → ℚ → ℚ → ℚ → SubstepOut L → Prop where
  | raining (s : SimState) (layer : L) (prev ev bflux : ℚ)
      (hc : create_surficial_front s prev (precip * subcycle_length_h) = true) :
      SubstepRel ops gp precip pet subcycle_length_h num_wetting_fronts
        s layer prev ev bflux
        (substep_blocked ops s layer (pet * subcycle_length_h) ev bflux)
  | ponded (s : SimState) (layer : L) (prev ev bflux : ℚ)
      (hc : create_surficial_front s prev (precip * subcycle_length_h) = false)
      (hp : 0 < precip * subcycle_length_h + s.ponded_water) :
      SubstepRel ops gp precip pet subcycle_length_h num_wetting_fronts
        s layer prev ev bflux
        (substep_blocked ops s layer (pet * subcycle_length_h) ev bflux)
  | dry (s : SimState) (layer : L) (prev ev bflux : ℚ)
      (hc : create_surficial_front s prev (precip * subcycle_length_h) = false)
      (hp : ¬ 0 < precip * subcycle_length_h + s.ponded_water) :
      SubstepRel ops gp precip pet subcycle_length_h num_wetting_fronts
        s layer prev ev bflux
        (substep_dry ops gp s layer (precip * subcycle_length_h)
          (pet * subcycle_length_h) subcycle_length_h num_wetting_fronts ev bflux)

/-- Trivial instantiation of the abstract layer operations, used to evaluate
the orchestration on concrete inputs. -/
def trivialOps : LayerOps Unit where
  is_saturated := fun _ => false
  calc_aet := fun _ q => (q, ())
  calc_wetting_front_free_drainage := fun _ => 0
  move_wetting_fronts := fun _ p _ _ _ _ _ => (p, ())
  merge_wetting_fronts := fun l => l
  wetting_fronts_cross_layer_boundary := fun l => l
  wetting_front_cross_domain_boundary := fun _ => (0, ())
  fix_dry_over_wet_fronts := fun l => l
  update_psi := fun l => l
  calc_dzdt := fun l => l
  mass_balance := fun _ => 0
  giuh_runoff := fun _ => 0

/-- A well-formed concrete configuration (two layers, GIUH summing to 1). -/
def cfg_good : Config :=
  { layer_thickness := [10, 20]
    layer_soil_type := [13, 13]
    giuh_ordinates := [3/5, 2/5]
    initial_psi := 1/100
    ponded_depth_max := 2 }

/-- The `GlobalParams` value that `cfg_good` constructs. -/
def gp_good : GlobalParams :=
  { layer_thickness_cm := [10, 20]
    cum_layer_thickness := [10, 30]
    num_layers := 2
    soil_depth_cm := 30
    initial_psi := 1/100
    ponded_depth_max_cm := 2
    layer_soil_type := [12, 12]
    giuh_ordinates := [3/5, 2/5] }

/-- An invalid concrete configuration: non-increasing layer thicknesses
`[3, 1]` and GIUH ordinates `[1/2, 1/4]` that sum to `3/4`, not `1`. -/
def cfg_bad : Config :=
  { layer_thickness := [3, 1]
    layer_soil_type := [1]
    giuh_ordinates := [1/2, 1/4]
    initial_psi := 1/100
    ponded_depth_max := 2 }

/-- Initial simulation state: zero ponded water, zero runoff accumulator. -/
def s0 : SimState := { ponded_water := 0, runoff_i := 0 }

/-- The `num_layers` value that `GlobalParams` derives from a configuration,
when construction succeeds. -/
def gp_num_layers_opt (cfg : Config) : Option ℕ :=
  Option.map GlobalParams.num_layers (GlobalParams.initialize_config_parameters cfg)

/-! Helper lemmas about the cumulative-thickness loop. -/

/-- The cumulative list has one entry per configured thickness. -/
theorem cum_from_length (p : ℚ) (ts : List ℚ) :
    (cum_from p ts).length = ts.length := by
  induction ts generalizing p with
  | nil => rfl
  | cons t ts ih => simp [cum_from, ih]

/-- The last cumulative entry is the starting value plus the sum of the
thicknesses. -/
theorem cum_from_getLastD (ts : List ℚ) : ∀ p t d : ℚ,
    (cum_from p (t :: ts)).getLastD d = p + t + ts.sum := by
  induction ts with
  | nil =>
    intro p t d
    simp [cum_from]
  | cons u us ih =>
    intro p t d
    show ((p + t) :: cum_from (p + t) (u :: us)).getLastD d = p + t + (u :: us).sum
    rw [List.getLastD_cons, ih (p + t) u (p + t), List.sum_cons]
    ring

/-- The recurrence of the loop: each cumulative entry is the previous one
plus the matching thickness. -/
theorem cum_from_getD_succ (ts : List ℚ) : ∀ (p : ℚ) (i : ℕ), i + 1 < ts.length →
    (cum_from p ts).getD (i + 1) 0 = (cum_from p ts).getD i 0 + ts.getD (i + 1) 0 := by
  induction ts with
  | nil =>
    intro p i h
    simp at h
  | cons t ts ih =>
    intro p i h
    cases i with
    | zero =>
      cases ts with
      | nil => simp at h
      | cons u us => rfl
    | succ i =>
      have h1 : i + 1 < ts.length := by
        simpa [Nat.succ_lt_succ_iff] using h
      show (cum_from (p + t) ts).getD (i + 1) 0 = _
      rw [ih (p + t) i h1]
      rfl

/-- With strictly positive thicknesses the cumulative entries are strictly
increasing. -/
theorem cum_from_chain (ts : List ℚ) : ∀ p : ℚ, (∀ t ∈ ts, 0 < t) →
    List.Chain' (fun a b => a < b) (cum_from p ts) := by
  induction ts with
  | nil =>
    intro p _
    simp [cum_from]
  | cons t ts ih =>
    intro p h
    have hts : ∀ x ∈ ts, 0 < x := fun x hx => h x (List.mem_cons_of_mem t hx)
    have htail := ih (p + t) hts
    cases ts with
    | nil => simp [cum_from]
    | cons u us =>
      have hu : 0 < u := hts u (List.mem_cons_self u us)
      rw [show cum_from p (t :: u :: us)
          = (p + t) :: (p + t + u) :: cum_from (p + t + u) us from rfl]
      rw [List.chain'_cons]
      constructor
      · linarith
      · simpa [cum_from] using htail

/-- In-bounds entries of a mapped list, through `getD`. -/
theorem getD_map_shift (l : List ℤ) : ∀ k : ℕ, k < l.length →
    (l.map (fun z => z - 1)).getD k 0 = l.getD k 0 - 1 := by
  induction l with
  | nil =>
    intro k hk
    simp at hk
  | cons a l ih =>
    intro k hk
    cases k with
    | zero => simp
    | succ k =>
      simp only [List.map_cons, List.getD_cons_succ]
      exact ih k (by simpa [Nat.succ_lt_succ_iff] using hk)

/-! Claim theorems. -/

/-- C2 (confirmed): `dpLGAR.create_surficial_front` returns true exactly when
the previous substep's precipitation is zero, the current substep's
precipitation is strictly positive, and the stored ponded water is zero.
As embedded it is a pure predicate: it reads `ponded_water` from the state
and returns a boolean without producing any state. -/
theorem create_surficial_front_iff (s : SimState) (previous_precip precip_sub : ℚ) :
    create_surficial_front s previous_precip precip_sub = true
      ↔ previous_precip = 0 ∧ 0 < precip_sub ∧ s.ponded_water = 0 := by
  simp [create_surficial_front, and_assoc]

/-- Evaluation helper: the concrete configuration `cfg_good` constructs
exactly `gp_good`. -/
theorem init_cfg_good :
    GlobalParams.initialize_config_parameters cfg_good = some gp_good := by
  norm_num [GlobalParams.initialize_config_parameters, cfg_good, gp_good, cum_from]

/-- C7 (confirmed): for strictly positive layer thicknesses, the constructed
`cum_layer_thickness` satisfies `cum[0] = thickness[0]` and
`cum[i] = cum[i-1] + thickness[i]`, is strictly increasing, and
`soil_depth_cm` is its last entry, the sum of all thicknesses.  The
embedding is immutable, matching the fact that no component writes to
`GlobalParams` after construction. -/
theorem cum_layer_thickness_invariant (cfg : Config) (gp : GlobalParams)
    (hgp : GlobalParams.initialize_config_parameters cfg = some gp)
    (hpos : ∀ t ∈ cfg.layer_thickness, 0 < t) :
    gp.cum_layer_thickness.getD 0 0 = cfg.layer_thickness.getD 0 0
    ∧ (∀ i : ℕ, i + 1 < gp.cum_layer_thickness.length →
        gp.cum_layer_thickness.getD (i + 1) 0
          = gp.cum_layer_thickness.getD i 0 + cfg.layer_thickness.getD (i + 1) 0)
    ∧ List.Chain' (fun a b => a < b) gp.cum_layer_thickness
    ∧ gp.soil_depth_cm = gp.cum_layer_thickness.getLastD 0
    ∧ gp.soil_depth_cm = cfg.layer_thickness.sum := by
  rcases hlt : cfg.layer_thickness with _ | ⟨t, ts⟩
  · rw [GlobalParams.initialize_config_parameters, hlt] at hgp
    exact absurd hgp (by simp)
  · rw [GlobalParams.initialize_config_parameters, hlt] at hgp
    rw [Option.some.injEq] at hgp
    have hcum : gp.cum_layer_thickness = cum_from 0 (t :: ts) := by rw [← hgp]
    have hsoil : gp.soil_depth_cm = (cum_from 0 (t :: ts)).getLastD 0 := by rw [← hgp]
    rw [hlt] at hpos
    refine ⟨?_, ?_, ?_, ?_, ?_⟩
    · rw [hcum]
      show 0 + t = t
      rw [zero_add]
    · intro i hi
      rw [hcum] at hi
      rw [hcum]
      exact cum_from_getD_succ (t :: ts) 0 i (by rwa [cum_from_length] at hi)
    · rw [hcum]
      exact cum_from_chain (t :: ts) 0 hpos
    · rw [hsoil, hcum]
    · rw [hsoil, cum_from_getLastD ts 0 t 0, List.sum_cons, zero_add]

/-- C7 witness: the invariant evaluated on a concrete two-layer
configuration. -/
theorem cum_layer_thickness_invariant_witness :
    (GlobalParams.initialize_config_parameters cfg_good = some gp_good)
    ∧ (∀ t ∈ cfg_good.layer_thickness, 0 < t)
    ∧ List.Chain' (fun a b => a < b) gp_good.cum_layer_thickness
    ∧ gp_good.soil_depth_cm = cfg_good.layer_thickness.sum :=
  ⟨init_cfg_good, by norm_num [cfg_good],
    (cum_layer_thickness_invariant cfg_good gp_good init_cfg_good
      (by norm_num [cfg_good])).2.2.1,
    (cum_layer_thickness_invariant cfg_good gp_good init_cfg_good
      (by norm_num [cfg_good])).2.2.2.2⟩

/-- C6 (counterexample): constructing `GlobalParams` from non-increasing
layer thicknesses `[3, 1]` and GIUH ordinates `[1/2, 1/4]` (which sum to
`3/4`, not `1`) succeeds and stores exactly those invalid values, refuting
the claim that construction fails and never accepts them. -/
theorem config_no_validation_counterexample :
    Option.map GlobalParams.layer_thickness_cm
        (GlobalParams.initialize_config_parameters cfg_bad) = some [3, 1]
    ∧ Option.map GlobalParams.giuh_ordinates
        (GlobalParams.initialize_config_parameters cfg_bad) = some [1/2, 1/4]
    ∧ ¬ ((3 : ℚ) < 1)
    ∧ (1 : ℚ)/2 + 1/4 ≠ 1 := by
  refine ⟨?_, ?_, by norm_num, by norm_num⟩
  · norm_num [GlobalParams.initialize_config_parameters, cfg_bad]
  · norm_num [GlobalParams.initialize_config_parameters, cfg_bad]

/-- C6 (amended): `GlobalParams.initialize_config_parameters` performs no
validation at all: for every configuration with a nonempty thickness list it
succeeds, and stores the configured layer thicknesses and GIUH ordinates
unchanged — whether valid or not. -/
theorem config_construction_accepts_all (cfg : Config)
    (h : cfg.layer_thickness ≠ []) :
    ∃ gp, GlobalParams.initialize_config_parameters cfg = some gp
      ∧ gp.layer_thickness_cm = cfg.layer_thickness
      ∧ gp.giuh_ordinates = cfg.giuh_ordinates := by
  rcases hlt : cfg.layer_thickness with _ | ⟨t, ts⟩
  · exact absurd hlt h
  · refine ⟨GlobalParams.mk (t :: ts) (cum_from 0 (t :: ts)) (t :: ts).length
      ((cum_from 0 (t :: ts)).getLastD 0) cfg.initial_psi cfg.ponded_depth_max
      (cfg.layer_soil_type.map (fun z => z - 1)) cfg.giuh_ordinates,
      ?_, rfl, rfl⟩
    rw [GlobalParams.initialize_config_parameters, hlt]

/-- C6 witness: the amended claim evaluated on the invalid configuration. -/
theorem config_construction_accepts_all_witness :
    cfg_bad.layer_thickness ≠ []
    ∧ ∃ gp, GlobalParams.initialize_config_parameters cfg_bad = some gp
        ∧ gp.layer_thickness_cm = cfg_bad.layer_thickness
        ∧ gp.giuh_ordinates = cfg_bad.giuh_ordinates :=
  ⟨by simp [cfg_bad], config_construction_accepts_all cfg_bad (by simp [cfg_bad])⟩

/-- C8 (confirmed): construction shifts every configured per-layer soil-type
index down by exactly one, converting the 1-based external convention to
zero-based indexing at the configuration boundary. -/
theorem layer_soil_type_shift (cfg : Config) (gp : GlobalParams)
    (hgp : GlobalParams.initialize_config_parameters cfg = some gp)
    (k : ℕ) (hk : k < cfg.layer_soil_type.length) :
    gp.layer_soil_type.getD k 0 = cfg.layer_soil_type.getD k 0 - 1 := by
  rcases hlt : cfg.layer_thickness with _ | ⟨t, ts⟩
  · rw [GlobalParams.initialize_config_parameters, hlt] at hgp
    exact absurd hgp (by simp)
  · rw [GlobalParams.initialize_config_parameters, hlt] at hgp
    rw [Option.some.injEq] at hgp
    have hst : gp.layer_soil_type = cfg.layer_soil_type.map (fun z => z - 1) := by
      rw [← hgp]
    rw [hst]
    exact getD_map_shift cfg.layer_soil_type k hk

/-- C8 witness: the shift evaluated at index 0 of the concrete
configuration (configured soil type 13 becomes 12). -/
theorem layer_soil_type_shift_witness :
    (GlobalParams.initialize_config_parameters cfg_good = some gp_good)
    ∧ 0 < cfg_good.layer_soil_type.length
    ∧ gp_good.layer_soil_type.getD 0 0 = cfg_good.layer_soil_type.getD 0 0 - 1 :=
  ⟨init_cfg_good, by norm_num [cfg_good],
    layer_soil_type_shift cfg_good gp_good init_cfg_good 0 (by norm_num [cfg_good])⟩

/-- C9 (counterexample): on the configuration with layer thicknesses
`[10, 20]`, `GlobalParams` derives `num_layers = 2` while `LGAR.__init__`
derives `num_layers = 3` (it counts its padding zero entry), so the two
constructions do not agree on `num_layers`. -/
theorem num_layers_disagreement :
    gp_num_layers_opt cfg_good = some 2
    ∧ (LGAR.init cfg_good).num_layers = 3
    ∧ gp_num_layers_opt cfg_good ≠ some ((LGAR.init cfg_good).num_layers) := by
  have h1 : gp_num_layers_opt cfg_good = some 2 := by
    rw [gp_num_layers_opt, init_cfg_good]
    norm_num [gp_good]
  have h2 : (LGAR.init cfg_good).num_layers = 3 := by
    norm_num [LGAR.init, cfg_good]
  refine ⟨h1, h2, ?_⟩
  rw [h1, h2]
  simp

/-- C9 (amended): the two constructions agree on `soil_depth_cm` (both equal
the sum of the configured thicknesses), but `LGAR`'s `num_layers` is always
exactly one more than `GlobalParams`'s, because `LGAR` pads its thickness
tensor with a leading zero entry and counts it. -/
theorem derived_totals_agreement (cfg : Config) (gp : GlobalParams)
    (hgp : GlobalParams.initialize_config_parameters cfg = some gp) :
    (LGAR.init cfg).soil_depth_cm = gp.soil_depth_cm
    ∧ (LGAR.init cfg).num_layers = gp.num_layers + 1 := by
  rcases hlt : cfg.layer_thickness with _ | ⟨t, ts⟩
  · rw [GlobalParams.initialize_config_parameters, hlt] at hgp
    exact absurd hgp (by simp)
  · rw [GlobalParams.initialize_config_parameters, hlt] at hgp
    rw [Option.some.injEq] at hgp
    have hsoil : gp.soil_depth_cm = (cum_from 0 (t :: ts)).getLastD 0 := by rw [← hgp]
    have hnum : gp.num_layers = (t :: ts).length := by rw [← hgp]
    constructor
    · show (cum_from 0 (0 :: cfg.layer_thickness)).getLastD 0 = gp.soil_depth_cm
      rw [hsoil, hlt, cum_from_getLastD (t :: ts) 0 0 0, cum_from_getLastD ts 0 t 0,
        List.sum_cons]
      ring
    · show (0 :: cfg.layer_thickness).length = gp.num_layers + 1
      rw [hnum, hlt, List.length_cons]

/-- C9 witness: the amended agreement evaluated on the concrete two-layer
configuration. -/
theorem derived_totals_agreement_witness :
    (GlobalParams.initialize_config_parameters cfg_good = some gp_good)
    ∧ (LGAR.init cfg_good).soil_depth_cm = gp_good.soil_depth_cm
    ∧ (LGAR.init cfg_good).num_layers = gp_good.num_layers + 1 :=
  ⟨init_cfg_good, (derived_totals_agreement cfg_good gp_good init_cfg_good).1,
    (derived_totals_agreement cfg_good gp_good init_cfg_good).2⟩

/-- C4 (confirmed): whenever a new surficial front must be created (whether
or not the top layer is saturated — the conclusion holds for every `ops` and
every `layer`, hence for both saturation outcomes), and whenever no new front
is created but the ponded depth is strictly positive, the substep raises
`NotImplementedError` instead of silently treating the case as a no-op. -/
theorem unimplemented_branches_raise {L : Type} (ops : LayerOps L)
    (gp : GlobalParams) (s : SimState) (layer : L)
    (precip pet previous_precip subcycle_length_h num_wetting_fronts
      ending_volume_sub bottom_boundary_flux : ℚ)
    (h : create_surficial_front s previous_precip (precip * subcycle_length_h) = true
      ∨ (create_surficial_front s previous_precip (precip * subcycle_length_h) = false
          ∧ 0 < precip * subcycle_length_h + s.ponded_water)) :
    (substep ops gp s layer precip pet previous_precip subcycle_length_h
      num_wetting_fronts ending_volume_sub bottom_boundary_flux).result
      = Except.error PyErr.notImplemented := by
  rcases h with h | ⟨h, hp⟩
  · simp [substep, h, substep_blocked]
  · simp [substep, h, hp, substep_blocked]

/-- C4 witness: a raining-onto-dry-state substep (`previous_precip = 0`,
positive precipitation, no ponded water) raises `NotImplementedError`. -/
theorem unimplemented_branches_raise_witness :
    (create_surficial_front s0 0 (1 * 1) = true
      ∨ (create_surficial_front s0 0 (1 * 1) = false ∧ 0 < 1 * 1 + s0.ponded_water))
    ∧ (substep trivialOps gp_good s0 () 1 0 0 1 1 0 0).result
        = Except.error PyErr.notImplemented := by
  have hc : create_surficial_front s0 0 (1 * 1) = true := by
    norm_num [create_surficial_front, s0]
  exact ⟨Or.inl hc,
    unimplemented_branches_raise trivialOps gp_good s0 () 1 0 0 1 1 0 0 (Or.inl hc)⟩

/-- C3 (counterexample): a substep with no new surficial front
(`previous_precip = 1`) and ponded depth `5` above `ponded_depth_max_cm = 2`
raises `NotImplementedError` and leaves the runoff accumulator at `0`,
instead of accumulating the claimed runoff `ponded depth − max = 3`. -/
theorem runoff_branch_counterexample :
    (substep trivialOps gp_good s0 () 5 0 1 1 1 0 0).result
        = Except.error PyErr.notImplemented
    ∧ (substep trivialOps gp_good s0 () 5 0 1 1 1 0 0).state.runoff_i = 0
    ∧ 5 * 1 + s0.ponded_water - gp_good.ponded_depth_max_cm = 3 := by
  have hc : create_surficial_front s0 1 5 = false := by
    norm_num [create_surficial_front, s0]
  have hp : (0 : ℚ) < 5 + s0.ponded_water := by norm_num [s0]
  refine ⟨?_, ?_, by norm_num [s0, gp_good]⟩
  · simp [substep, hc, hp, substep_blocked]
  · simp [substep, hc, hp, substep_blocked, s0]

/-- C3 (amended): in the no-new-front branch, strictly positive ponded depth
raises `NotImplementedError` (so the saturation-runoff scenario never
accumulates `precip − ponded_depth_max_cm`); the ponding block itself runs
only when the ponded depth is non-positive, where it adds the resolved
`runoff_sub` to the accumulator — and since a non-positive ponded depth is
below any positive `ponded_depth_max_cm`, that contribution is zero.  The
block's formula does match the claimed arithmetic: below the maximum it
yields zero runoff and retains the full ponded depth, otherwise runoff
`ponded − max` with retention `max`. -/
theorem ponding_runoff_resolution {L : Type} (ops : LayerOps L) (gp : GlobalParams)
    (s : SimState) (layer : L)
    (precip pet previous_precip subcycle_length_h num_wetting_fronts
      ending_volume_sub bottom_boundary_flux : ℚ)
    (hc : create_surficial_front s previous_precip (precip * subcycle_length_h) = false) :
    (0 < precip * subcycle_length_h + s.ponded_water →
      (substep ops gp s layer precip pet previous_precip subcycle_length_h
        num_wetting_fronts ending_volume_sub bottom_boundary_flux).result
        = Except.error PyErr.notImplemented)
    ∧ (¬ 0 < precip * subcycle_length_h + s.ponded_water →
        (substep ops gp s layer precip pet previous_precip subcycle_length_h
          num_wetting_fronts ending_volume_sub bottom_boundary_flux).state.runoff_i
          = s.runoff_i + (ponding_resolution (precip * subcycle_length_h + s.ponded_water)
              gp.ponded_depth_max_cm).1)
    ∧ (∀ pd pmax : ℚ, pd < pmax → ponding_resolution pd pmax = (0, pd, 0))
    ∧ (∀ pd pmax : ℚ, ¬ pd < pmax →
        ponding_resolution pd pmax = (pd - pmax, pmax, pmax))
    ∧ (¬ 0 < precip * subcycle_length_h + s.ponded_water →
        0 < gp.ponded_depth_max_cm →
        (substep ops gp s layer precip pet previous_precip subcycle_length_h
          num_wetting_fronts ending_volume_sub bottom_boundary_flux).state.runoff_i
          = s.runoff_i) := by
  refine ⟨?_, ?_, ?_, ?_, ?_⟩
  · intro hp
    simp [substep, hc, hp, substep_blocked]
  · intro hp
    simp [substep, hc, hp, substep_dry]
  · intro pd pmax h
    simp [ponding_resolution, h]
  · intro pd pmax h
    simp [ponding_resolution, h]
  · intro hp hm
    have hlt : precip * subcycle_length_h + s.ponded_water < gp.ponded_depth_max_cm := by
      push_neg at hp
      linarith
    simp [substep, hc, hp, substep_dry, ponding_resolution, hlt]

/-- C3 witness: with no rain, no carryover and no ponded water, the dry
branch runs and the accumulator gains exactly the resolved (zero) runoff. -/
theorem ponding_runoff_resolution_witness :
    (create_surficial_front s0 1 (0 * 1) = false)
    ∧ (¬ 0 < 0 * 1 + s0.ponded_water →
        (substep trivialOps gp_good s0 () 0 0 1 1 1 0 0).state.runoff_i
          = s0.runoff_i + (ponding_resolution (0 * 1 + s0.ponded_water)
              gp_good.ponded_depth_max_cm).1) := by
  have hc : create_surficial_front s0 1 (0 * 1) = false := by
    norm_num [create_surficial_front, s0]
  exact ⟨hc, (ponding_runoff_resolution trivialOps gp_good s0 () 0 0 1 1 1 0 0 hc).2.1⟩

/-- C1 (amended): in every substep that reaches the front-movement phase
(no new surficial front, non-positive ponded depth), the calls run in
exactly this order: `move_wetting_fronts`, then `merge_wetting_fronts`,
`wetting_fronts_cross_layer_boundary`, `merge_wetting_fronts` again — the
merge is performed twice but the layer-boundary crossing only once — then
the domain-boundary flux is accumulated into the percolation value
(`percolation_sub` ends equal to the accumulated `bottom_boundary_flux`),
then `fix_dry_over_wet_fronts`, `update_psi`, `calc_dzdt`, and the ending
volume is recomputed via the mass balance. -/
theorem movement_phase_order {L : Type} (ops : LayerOps L) (gp : GlobalParams)
    (s : SimState) (layer : L)
    (precip pet previous_precip subcycle_length_h num_wetting_fronts
      ending_volume_sub bottom_boundary_flux : ℚ)
    (hc : create_surficial_front s previous_precip (precip * subcycle_length_h) = false)
    (hp : ¬ 0 < precip * subcycle_length_h + s.ponded_water) :
    (substep ops gp s layer precip pet previous_precip subcycle_length_h
        num_wetting_fronts ending_volume_sub bottom_boundary_flux).trace
      = [Op.createSurficialFront, Op.calcWettingFrontFreeDrainage, Op.isSaturated]
        ++ (if pet * subcycle_length_h > 0 then [Op.calcAet] else [])
        ++ [Op.moveWettingFronts, Op.mergeWettingFronts,
            Op.wettingFrontsCrossLayerBoundary, Op.mergeWettingFronts,
            Op.wettingFrontCrossDomainBoundary, Op.fixDryOverWetFronts,
            Op.updatePsi, Op.calcDzDt, Op.massBalance, Op.giuhRunoff, Op.updateStates]
    ∧ (substep ops gp s layer precip pet previous_precip subcycle_length_h
        num_wetting_fronts ending_volume_sub bottom_boundary_flux).percolation_sub
      = (substep ops gp s layer precip pet previous_precip subcycle_length_h
          num_wetting_fronts ending_volume_sub bottom_boundary_flux).bottom_boundary_flux := by
  constructor
  · by_cases hpet : pet * subcycle_length_h > 0
    · simp [substep, hc, hp, substep_dry, substep_prelude, hpet]
    · simp [substep, hc, hp, substep_dry, substep_prelude, hpet]
  · simp [substep, hc, hp, substep_dry]

/-- C1 witness: the order theorem evaluated on a concrete dry substep. -/
theorem movement_phase_order_witness :
    (create_surficial_front s0 1 (0 * 1) = false)
    ∧ (¬ 0 < 0 * 1 + s0.ponded_water)
    ∧ (substep trivialOps gp_good s0 () 0 0 1 1 1 0 0).trace
      = [Op.createSurficialFront, Op.calcWettingFrontFreeDrainage, Op.isSaturated]
        ++ (if (0 : ℚ) * 1 > 0 then [Op.calcAet] else [])
        ++ [Op.moveWettingFronts, Op.mergeWettingFronts,
            Op.wettingFrontsCrossLayerBoundary, Op.mergeWettingFronts,
            Op.wettingFrontCrossDomainBoundary, Op.fixDryOverWetFronts,
            Op.updatePsi, Op.calcDzDt, Op.massBalance, Op.giuhRunoff, Op.updateStates] := by
  have hc : create_surficial_front s0 1 (0 * 1) = false := by
    norm_num [create_surficial_front, s0]
  have hp : ¬ (0 : ℚ) < 0 * 1 + s0.ponded_water := by norm_num [s0]
  exact ⟨hc, hp, (movement_phase_order trivialOps gp_good s0 () 0 0 1 1 1 0 0 hc hp).1⟩

/-- C1 (counterexample): on a concrete dry substep, the trace contains
`wetting_fronts_cross_layer_boundary` exactly once and
`merge_wetting_fronts` exactly twice, refuting the claim that merge and
layer-boundary crossing are each performed twice. -/
theorem movement_phase_order_counterexample :
    (substep trivialOps gp_good s0 () 0 0 1 1 1 0 0).trace
      = [Op.createSurficialFront, Op.calcWettingFrontFreeDrainage, Op.isSaturated,
         Op.moveWettingFronts, Op.mergeWettingFronts,
         Op.wettingFrontsCrossLayerBoundary, Op.mergeWettingFronts,
         Op.wettingFrontCrossDomainBoundary, Op.fixDryOverWetFronts,
         Op.updatePsi, Op.calcDzDt, Op.massBalance, Op.giuhRunoff, Op.updateStates]
    ∧ List.count Op.wettingFrontsCrossLayerBoundary
        (substep trivialOps gp_good s0 () 0 0 1 1 1 0 0).trace = 1
    ∧ List.count Op.mergeWettingFronts
        (substep trivialOps gp_good s0 () 0 0 1 1 1 0 0).trace = 2 := by
  have ht : (substep trivialOps gp_good s0 () 0 0 1 1 1 0 0).trace
      = [Op.createSurficialFront, Op.calcWettingFrontFreeDrainage, Op.isSaturated,
         Op.moveWettingFronts, Op.mergeWettingFronts,
         Op.wettingFrontsCrossLayerBoundary, Op.mergeWettingFronts,
         Op.wettingFrontCrossDomainBoundary, Op.fixDryOverWetFronts,
         Op.updatePsi, Op.calcDzDt, Op.massBalance, Op.giuhRunoff, Op.updateStates] := by
    have hcz : create_surficial_front s0 1 0 = false := by
      norm_num [create_surficial_front, s0]
    have hpz : ¬ (0 : ℚ) < s0.ponded_water := by norm_num [s0]
    have hpz0 : ¬ (0 : ℚ) < 0 + s0.ponded_water := by norm_num [s0]
    simp [substep, hcz, hpz, hpz0, substep_dry, substep_prelude]
  refine ⟨ht, ?_, ?_⟩
  · rw [ht]
    decide
  · rw [ht]
    decide

/-- C5 (confirmed): no substep of `forward` ever completes normally — every
branch of an executed substep raises, the dry branch failing at the final
`self.update_states()` call (a `TypeError`, since `update_states(self, i)`
requires the argument `i` and the call passes none; and even with an
argument, `update_states` unconditionally raises `NotImplementedError`) —
and `forward` as a whole never returns a value: even if the loops finish,
the final `return self.volrunoff_timestep_cm` names an attribute that was
never assigned. -/
theorem forward_never_completes {L : Type} (ops : LayerOps L) (gp : GlobalParams)
    (s : SimState) (layer : L)
    (precip pet previous_precip subcycle_length_h num_wetting_fronts
      ending_volume_sub bottom_boundary_flux ending_volume : ℚ)
    (nsteps num_subcycles i : ℕ) :
    isOkB (substep ops gp s layer precip pet previous_precip subcycle_length_h
        num_wetting_fronts ending_volume_sub bottom_boundary_flux).result = false
    ∧ update_states i = Except.error PyErr.notImplemented
    ∧ update_states_call = Except.error PyErr.typeError
    ∧ isOkB (forward ops gp s layer precip pet subcycle_length_h num_wetting_fronts
        ending_volume nsteps num_subcycles) = false := by
  refine ⟨?_, rfl, rfl, ?_⟩
  · simp only [substep]
    split
    · split <;> simp [substep_blocked, isOkB]
    · split
      · simp [substep_blocked, isOkB]
      · simp [substep_dry, isOkB, update_states_call]
  · cases h : run_timesteps ops gp precip pet subcycle_length_h num_wetting_fronts
        ending_volume num_subcycles nsteps s layer 0 with
    | error e => simp [forward, h, isOkB]
    | ok v => simp [forward, h, isOkB]

/-- C10 (confirmed): the substep relation is deterministic — two derivations
from identical states, layer stacks and carried values produce identical
outcomes (traces, states, fluxes, and raised errors alike). -/
theorem substep_deterministic {L : Type} (ops : LayerOps L) (gp : GlobalParams)
    (precip pet subcycle_length_h num_wetting_fronts : ℚ)
    (s1 s2 : SimState) (layer1 layer2 : L) (prev1 prev2 ev1 ev2 bflux1 bflux2 : ℚ)
    (o1 o2 : SubstepOut L)
    (hs : s1 = s2) (hlay : layer1 = layer2) (hprev : prev1 = prev2)
    (hev : ev1 = ev2) (hbf : bflux1 = bflux2)
    (h1 : SubstepRel ops gp precip pet subcycle_length_h num_wetting_fronts
        s1 layer1 prev1 ev1 bflux1 o1)
    (h2 : SubstepRel ops gp precip pet subcycle_length_h num_wetting_fronts
        s2 layer2 prev2 ev2 bflux2 o2) :
    o1 = o2 := by
  subst hs
  subst hlay
  subst hprev
  subst hev
  subst hbf
  cases h1 <;> cases h2 <;> simp_all

/-- C10 witness: two derivations of the raining branch at a concrete input
yield the same outcome. -/
theorem substep_deterministic_witness :
    create_surficial_front s0 0 (1 * 1) = true
    ∧ substep_blocked trivialOps s0 () (0 * 1) 0 0
        = substep_blocked trivialOps s0 () (0 * 1) 0 0 := by
  have hc : create_surficial_front s0 0 (1 * 1) = true := by
    norm_num [create_surficial_front, s0]
  exact ⟨hc,
    substep_deterministic trivialOps gp_good 1 0 1 1 s0 s0 () () 0 0 0 0 0 0 _ _
      rfl rfl rfl rfl rfl
      (SubstepRel.raining s0 () 0 0 0 hc) (SubstepRel.raining s0 () 0 0 0 hc)⟩
